import Mathlib

/-!
Verification of the `Game` coordinator in `apps/server/src/game/logic.ts`
(evil-cards server).

The embedding translates the `Game` class handler by handler.  The `Session`
class (and the `Controller`/`EventBus` transport) are not part of the
sources verified here; the few `Session` operations the handlers call
(`addUser`, `reconnectUser`, `disconnectUser`, `getUserWhitecards`) are
modelled from the specification and marked as such in their doc comments.

Error mapping (spec §7 taxonomy vs. the thrown messages in logic.ts):
  "session not found"                 ↦ SessionNotFound
  "game is started already"           ↦ InvalidPhase
  "nickname is taken"                 ↦ DuplicateNickname
  "no session" / "no user"            ↦ MissingContext
  "master can't vote" /
  "you are not a host" /
  "only master can choose card to show" ↦ PermissionDenied
  "you can't vote now" / "you can't choose" ↦ InvalidPhase
  "you have no such card"             ↦ UnknownCard
  "you have voted already"            ↦ AlreadyVoted
  "need more players"                 ↦ NeedMorePlayers (not in the spec's
                                        taxonomy; the guard is unreachable)
  "no red card" (voting listener)     ↦ NoRedCard
-/

/-- Session status, `logic.ts` / spec §3: `waiting | starting | voting |
choosing | choosingbest | end`. -/
inductive Status where
  | waiting
  | starting
  | voting
  | choosing
  | choosingbest
  | «end»
deriving DecidableEq, Repr

/-- Participant record (spec §3 User; fields read by `Game` in logic.ts). -/
structure User where
  id : Nat
  username : String
  avatarId : Nat
  host : Bool
  master : Bool
  disconnected : Bool
  voted : Bool
deriving DecidableEq, Repr

/-- Session state as read by `Game` (spec §3 Session).  `hands` models the
per-user white-card hands behind `getUserWhitecards`; `votes` the current
round's vote list broadcast in payloads; `nextId` the fresh-id source for
`addUser`. -/
structure Session where
  id : String
  status : Status
  users : List User
  redCard : Option String
  votes : List (Nat × String)
  hands : List (Nat × List String)
  nextId : Nat
deriving DecidableEq, Repr

/-- The named failures raised by the handlers (see the error mapping in the
file header). -/
inductive GameError where
  | SessionNotFound
  | InvalidPhase
  | PermissionDenied
  | DuplicateNickname
  | AlreadyVoted
  | UnknownCard
  | MissingContext
  | NeedMorePlayers
  | NoRedCard
deriving DecidableEq, Repr

/-- Outbound payloads, exactly the fields serialized in logic.ts
(`created`, `joined`, `userjoined`, `gamestart`, `votingstarted`,
`choosingstarted`, `choosingbeststarted`). -/
inductive Payload where
  | created (id : String) (status : Status) (users : List User) (userId : Nat)
  | joined (id : String) (status : Status) (userId : Nat) (users : List User)
      (whiteCards : List String) (redCard : Option String)
  | userjoined (users : List User)
  | gamestart (status : Status)
  | votingstarted (whiteCards : List String) (redCard : String)
      (users : List User) (status : Status) (votes : List (Nat × String))
  | choosingstarted (status : Status) (votes : List (Nat × String))
      (whiteCards : List String)
  | choosingbeststarted (status : Status)
deriving DecidableEq, Repr

/-- One `userSocket.send(stringify …)` call: the recipient user's id and the
payload sent. -/
structure Send where
  toUser : Nat
  payload : Payload
deriving DecidableEq, Repr

/-- Whether a payload carries the shared prompt (red) card. -/
def Payload.hasRedCard : Payload → Bool
  | .joined _ _ _ _ _ _ => true
  | .votingstarted _ _ _ _ _ => true
  | _ => false

/-- Whether a payload carries a `whiteCards` field (a user's private hand). -/
def Payload.hasWhiteCards : Payload → Bool
  | .joined _ _ _ _ _ _ => true
  | .votingstarted _ _ _ _ _ => true
  | .choosingstarted _ _ _ => true
  | _ => false

/-- Whether a payload carries a `votes` field. -/
def Payload.hasVotes : Payload → Bool
  | .votingstarted _ _ _ _ _ => true
  | .choosingstarted _ _ _ => true
  | _ => false

/-- Modelled from the spec (§4.2): `Session.getUserWhitecards` is a Session
accessor (the Session implementation is not under the verified sources); it
returns the user's private hand and never mutates state. -/
def Session.getUserWhitecards (s : Session) (u : User) : List String :=
  (s.hands.lookup u.id).getD []

/-- Modelled from the spec (§4.2): `Session.addUser` (Session implementation
not under the verified sources) creates and appends a User with the given
host flag; the new user gets a fresh id, is connected, has not voted and is
not master. -/
def Session.addUser (s : Session) (username : String) (avatarId : Nat)
    (isHost : Bool) : Session × User :=
  let user : User :=
    { id := s.nextId, username := username, avatarId := avatarId,
      host := isHost, master := false, disconnected := false, voted := false }
  ({ s with users := s.users ++ [user], nextId := s.nextId + 1 }, user)

/-- Modelled from the spec (§4.2): `Session.reconnectUser` rebinds the
connection reference on the existing user, clears `disconnected` and updates
the avatar; it creates no new user. -/
def Session.reconnectUser (s : Session) (prev : User) (avatarId : Nat) :
    Session :=
  { s with
    users := s.users.map fun u =>
      if u.id == prev.id then
        { u with disconnected := false, avatarId := avatarId }
      else u }

/-- Modelled from the spec (§4.2): `Session.disconnectUser` marks the user
`disconnected` and drops the connection association; the second component is
whether this emptied the session's active participant set (in which case the
caller's `onEmpty` callback fires). -/
def Session.disconnectUser (s : Session) (userId : Nat) : Session × Bool :=
  let users := s.users.map fun u =>
    if u.id == userId then { u with disconnected := true } else u
  ({ s with users := users }, users.all fun u => u.disconnected)

/-- The connection's mutable associations (`socket.session`, `socket.user`
in logic.ts); we record the bound session's value and the bound user's id. -/
structure Socket where
  session : Option Session
  user : Option Nat
deriving DecidableEq, Repr

/-- The `Game` registry: the `sessions : Map<string, Session>` field. -/
structure GameState where
  sessions : List (String × Session)
deriving DecidableEq, Repr

namespace Game

/-- The broadcast loop at the end of `Game.joinSession` (logic.ts lines
101–128): iterate `session.users` in order; the joining user gets `joined`
(with its private hand and the red card), everyone else gets `userjoined`.
There is no `disconnected` check in this loop. -/
def joinBroadcast (s : Session) (newUser : User) : List Send :=
  s.users.map fun user =>
    if user.id == newUser.id then
      { toUser := user.id,
        payload := .joined s.id s.status newUser.id s.users
          (s.getUserWhitecards user) s.redCard }
    else
      { toUser := user.id, payload := .userjoined s.users }

/-- The `starting` listener installed by `Game.startGame` (lines 181–194):
for each user in order, skip if `disconnected`, else send `gamestart`. -/
def startingBroadcastAux (s : Session) : List User → List Send
  | [] => []
  | u :: rest =>
    if u.disconnected then startingBroadcastAux s rest
    else { toUser := u.id, payload := .gamestart s.status }
      :: startingBroadcastAux s rest

def startingBroadcast (s : Session) : List Send :=
  startingBroadcastAux s s.users

/-- The `voting` listener (lines 195–218): for each user in order, skip if
`disconnected`; if `session.redCard` is absent the listener throws
("no red card"), aborting the remaining dispatch; else send
`votingstarted` with the user's hand, the red card, users, status, votes. -/
def votingBroadcastAux (s : Session) : List User → Except GameError (List Send)
  | [] => .ok []
  | u :: rest =>
    if u.disconnected then votingBroadcastAux s rest
    else
      match s.redCard with
      | none => .error .NoRedCard
      | some rc =>
        match votingBroadcastAux s rest with
        | .error e => .error e
        | .ok tail =>
          .ok ({ toUser := u.id,
                 payload := .votingstarted (s.getUserWhitecards u) rc s.users
                   s.status s.votes } :: tail)

def votingBroadcast (s : Session) : Except GameError (List Send) :=
  votingBroadcastAux s s.users

/-- The `choosing` listener (lines 219–236): skip disconnected users, send
`choosingstarted` with status, votes and the user's private hand. -/
def choosingBroadcastAux (s : Session) : List User → List Send
  | [] => []
  | u :: rest =>
    if u.disconnected then choosingBroadcastAux s rest
    else { toUser := u.id,
           payload := .choosingstarted s.status s.votes
             (s.getUserWhitecards u) }
      :: choosingBroadcastAux s rest

def choosingBroadcast (s : Session) : List Send :=
  choosingBroadcastAux s s.users

/-- The `choosingbest` listener (lines 237–250): skip disconnected users,
send `choosingbeststarted` carrying only the status. -/
def choosingbestBroadcastAux (s : Session) : List User → List Send
  | [] => []
  | u :: rest =>
    if u.disconnected then choosingbestBroadcastAux s rest
    else { toUser := u.id, payload := .choosingbeststarted s.status }
      :: choosingbestBroadcastAux s rest

def choosingbestBroadcast (s : Session) : List Send :=
  choosingbestBroadcastAux s s.users

/-- Successful outcome of `Game.joinSession`: the updated session, the
user bound to the connection (`newUser`), and the broadcast sends. -/
structure JoinOk where
  session : Session
  newUser : User
  sends : List Send
deriving DecidableEq, Repr

/-- The "new join" path of `Game.joinSession` (lines 87–95): reject if the
game is started, reject a taken nickname (the source uses
`findIndex(…) != -1`, equivalent to `find?.isSome`), else `addUser` with
`isHost = false`. -/
def joinNewUser (s : Session) (username : String) (avatarId : Nat)
    (waitingState : Bool) : Except GameError JoinOk :=
  if !waitingState then .error .InvalidPhase
  else if (s.users.find? fun u => u.username == username).isSome then
    .error .DuplicateNickname
  else
    let (s1, user) := s.addUser username avatarId false
    .ok { session := s1, newUser := user, sends := joinBroadcast s1 user }

/-- `Game.joinSession` (logic.ts lines 69–131). -/
def joinSession (g : GameState) (sessionId username : String)
    (avatarId : Nat) : Except GameError JoinOk :=
  match g.sessions.lookup sessionId with
  | none => .error .SessionNotFound
  | some session =>
    let waitingState :=
      session.status == Status.waiting || session.status == Status.«end»
    match session.users.find? fun u => u.username == username with
    | some previousUser =>
      if !waitingState then
        let s1 := session.reconnectUser previousUser avatarId
        let newUser :=
          { previousUser with disconnected := false, avatarId := avatarId }
        .ok { session := s1, newUser := newUser,
              sends := joinBroadcast s1 newUser }
      else joinNewUser session username avatarId waitingState
    | none => joinNewUser session username avatarId waitingState

/-- `Game.vote` (logic.ts lines 133–157); a successful run reaches
`session.vote(user, text)`, recorded as the returned pair. -/
def vote (session? : Option Session) (user? : Option User) (text : String) :
    Except GameError (User × String) :=
  match session? with
  | none => .error .MissingContext
  | some session =>
    match user? with
    | none => .error .MissingContext
    | some user =>
      if user.master then .error .PermissionDenied
      else if session.status != Status.voting then .error .InvalidPhase
      else if !((session.getUserWhitecards user).contains text) then
        .error .UnknownCard
      else if user.voted then .error .AlreadyVoted
      else .ok (user, text)

/-- The observable steps of a successful `Game.startGame` run, in source
order: clear the session bus, install the four phase listeners, call
`session.startGame()`. -/
inductive StartAction where
  | clearListeners
  | installListener (event : String)
  | callStartGame
deriving DecidableEq, Repr

def StartAction.isInstall : StartAction → Bool
  | .installListener _ => true
  | _ => false

/-- `Game.startGame` (logic.ts lines 159–253): context, host and phase
guards, the (vacuous) `session.users.length < 0` minimum-player guard, then
the clear/install/start sequence as written in the source. -/
def startGame (session? : Option Session) (user? : Option User) :
    Except GameError (List StartAction) :=
  match session? with
  | none => .error .MissingContext
  | some session =>
    match user? with
    | none => .error .MissingContext
    | some user =>
      if !user.host then .error .PermissionDenied
      else if session.status != Status.waiting
          && session.status != Status.«end» then .error .InvalidPhase
      else if session.users.length < 0 then .error .NeedMorePlayers
      else
        .ok [StartAction.clearListeners,
             StartAction.installListener "starting",
             StartAction.installListener "voting",
             StartAction.installListener "choosing",
             StartAction.installListener "choosingbest",
             StartAction.callStartGame]

/-- `Game.choose` (logic.ts lines 255–273); a successful run reaches
`session.choose(userId)`, recorded as the returned id.  Note the source
checks the status before resolving the user. -/
def choose (session? : Option Session) (user? : Option User) (userId : Nat) :
    Except GameError Nat :=
  match session? with
  | none => .error .MissingContext
  | some session =>
    if session.status != Status.choosing then .error .InvalidPhase
    else
      match user? with
      | none => .error .MissingContext
      | some user =>
        if !user.master then .error .PermissionDenied
        else .ok userId

/-- `Game.chooseBest` (logic.ts lines 275–293); mirror of `choose` gated on
`choosingbest`, reaching `session.chooseBest(userId)`. -/
def chooseBest (session? : Option Session) (user? : Option User)
    (userId : Nat) : Except GameError Nat :=
  match session? with
  | none => .error .MissingContext
  | some session =>
    if session.status != Status.choosingbest then .error .InvalidPhase
    else
      match user? with
      | none => .error .MissingContext
      | some user =>
        if !user.master then .error .PermissionDenied
        else .ok userId

/-- `Game.onSessionEnd` (logic.ts lines 295–298): clear the session's
listeners and delete it from the registry. -/
def onSessionEnd (g : GameState) (s : Session) : GameState :=
  { g with sessions := g.sessions.filter fun p => p.1 != s.id }

/-- `Game.disconnectUser`, the `lostconnection` handler (logic.ts lines
29–40): if the socket has no bound session or user, return immediately;
otherwise run `session.disconnectUser` (tearing the session down via
`onSessionEnd` when it reports the active set empty — the registry entry
keyed by the session's id is the same mutated object) and clear both
socket associations. -/
def disconnectUser (g : GameState) (sock : Socket) : GameState × Socket :=
  match sock.session, sock.user with
  | some session, some userId =>
    let (s1, empty) := session.disconnectUser userId
    let g1 : GameState :=
      { g with sessions := g.sessions.map fun p =>
          if p.1 == s1.id then (p.1, s1) else p }
    let g2 := if empty then onSessionEnd g1 s1 else g1
    (g2, { session := none, user := none })
  | _, _ => (g, sock)

end Game

/-! ## Broadcast characterizations (shared helper lemmas) -/

/-- Ids of the non-disconnected users, in list order. -/
def connectedIds (s : Session) : List Nat :=
  (s.users.filter fun u => !u.disconnected).map User.id

theorem startingBroadcastAux_eq (s : Session) (l : List User) :
    Game.startingBroadcastAux s l =
      (l.filter fun u => !u.disconnected).map fun u =>
        { toUser := u.id, payload := Payload.gamestart s.status } := by
  induction l with
  | nil => rfl
  | cons u rest ih =>
    cases h : u.disconnected <;>
      simp [Game.startingBroadcastAux, List.filter_cons, h, ih]

theorem choosingBroadcastAux_eq (s : Session) (l : List User) :
    Game.choosingBroadcastAux s l =
      (l.filter fun u => !u.disconnected).map fun u =>
        { toUser := u.id,
          payload := Payload.choosingstarted s.status s.votes
            (s.getUserWhitecards u) } := by
  induction l with
  | nil => rfl
  | cons u rest ih =>
    cases h : u.disconnected <;>
      simp [Game.choosingBroadcastAux, List.filter_cons, h, ih]

theorem choosingbestBroadcastAux_eq (s : Session) (l : List User) :
    Game.choosingbestBroadcastAux s l =
      (l.filter fun u => !u.disconnected).map fun u =>
        { toUser := u.id, payload := Payload.choosingbeststarted s.status } := by
  induction l with
  | nil => rfl
  | cons u rest ih =>
    cases h : u.disconnected <;>
      simp [Game.choosingbestBroadcastAux, List.filter_cons, h, ih]

theorem votingBroadcastAux_ok_recipients (s : Session) (l : List User)
    (sends : List Send) (h : Game.votingBroadcastAux s l = .ok sends) :
    sends.map Send.toUser = (l.filter fun u => !u.disconnected).map User.id := by
  induction l generalizing sends with
  | nil =>
    simp [Game.votingBroadcastAux] at h
    simp [← h]
  | cons u rest ih =>
    cases hd : u.disconnected with
    | true =>
      simp [Game.votingBroadcastAux, hd] at h
      simp [List.filter_cons, hd, ih sends h]
    | false =>
      cases hrc : s.redCard with
      | none => simp [Game.votingBroadcastAux, hd, hrc] at h
      | some rc =>
        simp only [Game.votingBroadcastAux, hd, hrc] at h
        cases htail : Game.votingBroadcastAux s rest with
        | error e => rw [htail] at h; simp at h
        | ok tail =>
          rw [htail] at h
          simp at h
          simp [← h, List.filter_cons, hd, ih tail htail]

/-- Fixture: a connected non-master user with a hand. -/
def wGuest : User :=
  { id := 1, username := "bob", avatarId := 2, host := false, master := false,
    disconnected := false, voted := false }

/-- Fixture: the session host. -/
def wHost : User :=
  { id := 0, username := "ann", avatarId := 1, host := true, master := false,
    disconnected := false, voted := false }

/-- Fixture: the round master. -/
def wMaster : User :=
  { id := 2, username := "eve", avatarId := 3, host := false, master := true,
    disconnected := false, voted := false }

/-- Fixture: a disconnected user. -/
def wDisc : User :=
  { id := 3, username := "dan", avatarId := 4, host := false, master := false,
    disconnected := true, voted := false }

/-- Fixture: a mid-game session in `voting` status. -/
def wSession : Session :=
  { id := "sid", status := Status.voting, users := [wHost, wGuest, wMaster, wDisc],
    redCard := some "red", votes := [(1, "c1")], hands := [(1, ["c1", "c2"])],
    nextId := 4 }

/-- Fixture: a fresh session in `waiting` status with only the host. -/
def wWaiting : Session :=
  { id := "wid", status := Status.waiting, users := [wHost],
    redCard := none, votes := [], hands := [], nextId := 1 }

/-- Fixture: the registry holding both fixture sessions. -/
def wGame : GameState := { sessions := [("sid", wSession), ("wid", wWaiting)] }

/-! ## C1 -/

/-- C1 counterexample: in the fixture session, the `choosingbest` phase
broadcast installed by `Game.startGame` sends `choosingbeststarted` payloads
that carry only the status — no `whiteCards` and no `votes` field — so the
claim that the `choosingbeststarted` payload contains per-user whiteCards
and votes in addition to status is false. -/
theorem choosingbest_payload_only_status_cex :
    Game.choosingbestBroadcast wSession =
      [{ toUser := 0, payload := Payload.choosingbeststarted Status.voting },
       { toUser := 1, payload := Payload.choosingbeststarted Status.voting },
       { toUser := 2, payload := Payload.choosingbeststarted Status.voting }] ∧
    (Payload.choosingbeststarted Status.voting).hasWhiteCards = false ∧
    (Payload.choosingbeststarted Status.voting).hasVotes = false := by
  refine ⟨rfl, rfl, rfl⟩

/-- C1 (amended): the `choosing` broadcast sends each connected user a
`choosingstarted` payload with the status, the votes and that user's private
hand, and no prompt card; the `choosingbest` broadcast sends each connected
user a `choosingbeststarted` payload carrying only the status — no prompt
card, no hand, no votes. -/
theorem choosing_broadcast_payloads (s : Session) :
    Game.choosingBroadcast s =
      ((s.users.filter fun u => !u.disconnected).map fun u =>
        { toUser := u.id,
          payload := Payload.choosingstarted s.status s.votes
            (s.getUserWhitecards u) }) ∧
    Game.choosingbestBroadcast s =
      ((s.users.filter fun u => !u.disconnected).map fun u =>
        { toUser := u.id, payload := Payload.choosingbeststarted s.status }) ∧
    (Game.choosingBroadcast s).all (fun snd =>
      !snd.payload.hasRedCard && snd.payload.hasVotes
        && snd.payload.hasWhiteCards) = true ∧
    (Game.choosingbestBroadcast s).all (fun snd =>
      !snd.payload.hasRedCard && !snd.payload.hasVotes
        && !snd.payload.hasWhiteCards) = true := by
  refine ⟨choosingBroadcastAux_eq s s.users, choosingbestBroadcastAux_eq s s.users, ?_, ?_⟩
  · rw [Game.choosingBroadcast, choosingBroadcastAux_eq, List.all_eq_true]
    intro snd hsnd
    rw [List.mem_map] at hsnd
    obtain ⟨u, -, rfl⟩ := hsnd
    rfl
  · rw [Game.choosingbestBroadcast, choosingbestBroadcastAux_eq, List.all_eq_true]
    intro snd hsnd
    rw [List.mem_map] at hsnd
    obtain ⟨u, -, rfl⟩ := hsnd
    rfl

/-! ## C3 -/

/-- C3 counterexample: in the fixture session, user 3 (`wDisc`) is
disconnected, yet the join/reconnect broadcast loop of `Game.joinSession`
attempts a send to every user in the list, including user 3 — so the claim
that every Game broadcast skips disconnected users is false. -/
theorem join_broadcast_hits_disconnected_cex :
    wDisc ∈ wSession.users ∧ wDisc.disconnected = true ∧
    (Game.joinBroadcast wSession wGuest).map Send.toUser = [0, 1, 2, 3] := by
  refine ⟨List.Mem.tail _ (List.Mem.tail _ (List.Mem.tail _ (List.Mem.head _))), rfl, rfl⟩

/-- C3 (amended): the four phase broadcasts installed by `Game.startGame`
visit the session's users in list order and skip exactly the users with
`disconnected = true`; the join/reconnect broadcast of `Game.joinSession`
also visits users in list order but sends to every user, disconnected ones
included. -/
theorem broadcast_recipients (s : Session) (nu : User) :
    (Game.startingBroadcast s).map Send.toUser = connectedIds s ∧
    (Game.choosingBroadcast s).map Send.toUser = connectedIds s ∧
    (Game.choosingbestBroadcast s).map Send.toUser = connectedIds s ∧
    (∀ sends, Game.votingBroadcast s = .ok sends →
      sends.map Send.toUser = connectedIds s) ∧
    (Game.joinBroadcast s nu).map Send.toUser = s.users.map User.id := by
  refine ⟨?_, ?_, ?_, ?_, ?_⟩
  · rw [Game.startingBroadcast, startingBroadcastAux_eq, connectedIds, List.map_map]
    rfl
  · rw [Game.choosingBroadcast, choosingBroadcastAux_eq, connectedIds, List.map_map]
    rfl
  · rw [Game.choosingbestBroadcast, choosingbestBroadcastAux_eq, connectedIds, List.map_map]
    rfl
  · intro sends h
    exact votingBroadcastAux_ok_recipients s s.users sends h
  · rw [Game.joinBroadcast, List.map_map]
    apply List.map_congr_left
    intro u _
    simp only [Function.comp_apply]
    split <;> rfl

/-- C3 witness: the amended statement applied to the fixture session, with
the `votingBroadcast` success hypothesis discharged on its concrete output. -/
theorem broadcast_recipients_witness :
    ([{ toUser := 0,
        payload := Payload.votingstarted [] "red" wSession.users Status.voting
          [(1, "c1")] },
      { toUser := 1,
        payload := Payload.votingstarted ["c1", "c2"] "red" wSession.users
          Status.voting [(1, "c1")] },
      { toUser := 2,
        payload := Payload.votingstarted [] "red" wSession.users Status.voting
          [(1, "c1")] }] : List Send).map Send.toUser = connectedIds wSession :=
  (broadcast_recipients wSession wGuest).2.2.2.1 _ rfl

/-! ## C2 -/

/-- Index of `clearListeners` in a start trace. -/
def clearIdx (tr : List Game.StartAction) : Nat :=
  tr.findIdx fun a => a == Game.StartAction.clearListeners

/-- Index of the `session.startGame()` call in a start trace. -/
def callIdx (tr : List Game.StartAction) : Nat :=
  tr.findIdx fun a => a == Game.StartAction.callStartGame

/-- Index of the first listener installation in a start trace. -/
def firstInstallIdx (tr : List Game.StartAction) : Nat :=
  tr.findIdx Game.StartAction.isInstall

/-- The trace a successful `Game.startGame` run produces. -/
def okStartTrace : List Game.StartAction :=
  [Game.StartAction.clearListeners,
   Game.StartAction.installListener "starting",
   Game.StartAction.installListener "voting",
   Game.StartAction.installListener "choosing",
   Game.StartAction.installListener "choosingbest",
   Game.StartAction.callStartGame]

/-- C2 counterexample: on the fixture waiting session with its host,
`Game.startGame` succeeds, and in the resulting trace the listener
installations do NOT come after the `session.startGame()` call — the claimed
ordering (clear, then startGame, then install) is false: the call is the
last action, after all installations. -/
theorem startGame_listener_order_cex :
    Game.startGame (some wWaiting) (some wHost) = .ok okStartTrace ∧
    ¬ (clearIdx okStartTrace < callIdx okStartTrace ∧
       callIdx okStartTrace < firstInstallIdx okStartTrace) := by
  refine ⟨rfl, ?_⟩
  decide

/-- C2 (amended): a successful `Game.startGame` run clears the session's
stale listener set first, then installs the four phase-broadcast listeners,
and only then calls `session.startGame()` — the clear is the first action,
all four installations lie strictly between the clear and the call, and the
`session.startGame()` call is the last action of the trace. -/
theorem startGame_wiring_order (s? : Option Session) (u? : Option User)
    (tr : List Game.StartAction) (h : Game.startGame s? u? = .ok tr) :
    tr = okStartTrace ∧
    clearIdx tr = 0 ∧ firstInstallIdx tr = 1 ∧
    (tr.filter Game.StartAction.isInstall).length = 4 ∧
    callIdx tr = 5 ∧ tr.length = 6 ∧
    tr.getLast? = some Game.StartAction.callStartGame := by
  cases s? with
  | none => simp [Game.startGame] at h
  | some s =>
    cases u? with
    | none => simp [Game.startGame] at h
    | some u =>
      simp only [Game.startGame] at h
      split at h
      · simp at h
      · split at h
        · simp at h
        · split at h
          · simp at h
          · rw [Except.ok.injEq] at h
            subst h
            refine ⟨rfl, by decide, by decide, by decide, by decide, rfl, rfl⟩

/-- C2 witness: the amended ordering facts on the concrete run of
`Game.startGame` over the fixture waiting session and its host. -/
theorem startGame_wiring_order_witness :
    okStartTrace = okStartTrace ∧
    clearIdx okStartTrace = 0 ∧ firstInstallIdx okStartTrace = 1 ∧
    (okStartTrace.filter Game.StartAction.isInstall).length = 4 ∧
    callIdx okStartTrace = 5 ∧ okStartTrace.length = 6 ∧
    okStartTrace.getLast? = some Game.StartAction.callStartGame :=
  startGame_wiring_order (some wWaiting) (some wHost) okStartTrace rfl

/-! ## C4 -/

/-- C4: `Game.joinSession` fails with `SessionNotFound` for every unknown
session id; for a session in `waiting`/`end` status it fails with
`DuplicateNickname` whenever the requested username is already present
(which includes a returning user of that same session), and otherwise
succeeds, appending a new user with `host = false`. -/
theorem joinSession_guards (g : GameState) (sid uname : String) (aid : Nat) :
    (g.sessions.lookup sid = none →
      Game.joinSession g sid uname aid = .error .SessionNotFound) ∧
    (∀ s, g.sessions.lookup sid = some s →
      (s.status = Status.waiting ∨ s.status = Status.«end») →
      (((s.users.find? fun u => u.username == uname).isSome = true →
          Game.joinSession g sid uname aid = .error .DuplicateNickname) ∧
       ((s.users.find? fun u => u.username == uname) = none →
          ∃ r, Game.joinSession g sid uname aid = .ok r ∧
            r.session.users = s.users ++ [r.newUser] ∧
            r.newUser.host = false ∧ r.newUser.username = uname))) := by
  constructor
  · intro h
    simp [Game.joinSession, h]
  · intro s hs hst
    have hws : (s.status == Status.waiting || s.status == Status.«end») = true := by
      rcases hst with h | h <;> rw [h] <;> rfl
    constructor
    · intro hdup
      rw [Option.isSome_iff_exists] at hdup
      obtain ⟨pu, hpu⟩ := hdup
      have hfs : (s.users.find? fun u => u.username == uname).isSome = true := by
        rw [hpu]; rfl
      simp [Game.joinSession, hs, hpu, hws, Game.joinNewUser, hfs]
    · intro hnone
      refine ⟨⟨(s.addUser uname aid false).1, (s.addUser uname aid false).2,
        Game.joinBroadcast (s.addUser uname aid false).1
          (s.addUser uname aid false).2⟩, ?_, rfl, rfl, rfl⟩
      simp [Game.joinSession, hs, hnone, hws, Game.joinNewUser, Session.addUser]

/-- C4 witness: joining the fixture registry with an unknown id fails with
`SessionNotFound`; joining the waiting fixture session with the host's own
nickname fails with `DuplicateNickname`; joining it with a fresh nickname
appends a non-host user. -/
theorem joinSession_guards_witness :
    Game.joinSession wGame "zzz" "ann" 9 = .error .SessionNotFound ∧
    Game.joinSession wGame "wid" "ann" 9 = .error .DuplicateNickname ∧
    (∃ r, Game.joinSession wGame "wid" "carl" 9 = .ok r ∧
      r.session.users = wWaiting.users ++ [r.newUser] ∧
      r.newUser.host = false ∧ r.newUser.username = "carl") :=
  ⟨(joinSession_guards wGame "zzz" "ann" 9).1 rfl,
   ((joinSession_guards wGame "wid" "ann" 9).2 wWaiting rfl (Or.inl rfl)).1 rfl,
   ((joinSession_guards wGame "wid" "carl" 9).2 wWaiting rfl (Or.inl rfl)).2 rfl⟩

/-! ## C5 -/

/-- C5: a join whose username matches an existing user of a session whose
status is neither `waiting` nor `end` reconnects that user: `Game.joinSession`
succeeds, the returned user keeps the matched user's id, username, role
flags and vote state (now connected), no user is appended, and the user's
hand is untouched. -/
theorem joinSession_reconnect (g : GameState) (sid uname : String) (aid : Nat)
    (s : Session) (pu : User)
    (hs : g.sessions.lookup sid = some s)
    (hw : s.status ≠ Status.waiting) (he : s.status ≠ Status.«end»)
    (hpu : (s.users.find? fun u => u.username == uname) = some pu) :
    ∃ r, Game.joinSession g sid uname aid = .ok r ∧
      r.newUser.id = pu.id ∧ r.newUser.username = pu.username ∧
      r.newUser.voted = pu.voted ∧ r.newUser.host = pu.host ∧
      r.newUser.master = pu.master ∧ r.newUser.disconnected = false ∧
      r.session.users.map User.id = s.users.map User.id ∧
      r.session.users.length = s.users.length ∧
      r.session.hands = s.hands ∧
      r.session.getUserWhitecards r.newUser = s.getUserWhitecards pu := by
  have hws : (s.status == Status.waiting || s.status == Status.«end») = false := by
    cases hsx : s.status
    · exact absurd hsx hw
    · rfl
    · rfl
    · rfl
    · rfl
    · exact absurd hsx he
  refine ⟨⟨s.reconnectUser pu aid,
           { pu with disconnected := false, avatarId := aid },
           Game.joinBroadcast (s.reconnectUser pu aid)
             { pu with disconnected := false, avatarId := aid }⟩,
          ?_, rfl, rfl, rfl, rfl, rfl, rfl, ?_, ?_, rfl, rfl⟩
  · simp [Game.joinSession, hs, hpu, hws]
  · simp only [Session.reconnectUser, List.map_map]
    apply List.map_congr_left
    intro u _
    simp only [Function.comp_apply]
    split <;> rfl
  · simp [Session.reconnectUser]

/-- C5 witness: the non-master guest reconnecting to the mid-game fixture
session (status `voting`) is restored, not duplicated. -/
theorem joinSession_reconnect_witness :
    ∃ r, Game.joinSession wGame "sid" "bob" 9 = .ok r ∧
      r.newUser.id = wGuest.id ∧ r.newUser.username = wGuest.username ∧
      r.newUser.voted = wGuest.voted ∧ r.newUser.host = wGuest.host ∧
      r.newUser.master = wGuest.master ∧ r.newUser.disconnected = false ∧
      r.session.users.map User.id = wSession.users.map User.id ∧
      r.session.users.length = wSession.users.length ∧
      r.session.hands = wSession.hands ∧
      r.session.getUserWhitecards r.newUser = wSession.getUserWhitecards wGuest :=
  joinSession_reconnect wGame "sid" "bob" 9 wSession wGuest rfl
    (by decide) (by decide) rfl

/-! ## C6 -/

/-- C6: with a bound session and user, `Game.vote` runs the source's guard
cascade: the master is rejected with `PermissionDenied`; a non-master
outside `voting` status gets `InvalidPhase`; a card not in the caller's hand
gets `UnknownCard`; a caller who already voted gets `AlreadyVoted`; and only
when none of these hold does the handler reach `session.vote(user, text)`. -/
theorem vote_guards (s : Session) (u : User) (text : String) :
    (u.master = true →
      Game.vote (some s) (some u) text = .error .PermissionDenied) ∧
    (u.master = false → s.status ≠ Status.voting →
      Game.vote (some s) (some u) text = .error .InvalidPhase) ∧
    (u.master = false → s.status = Status.voting →
      (s.getUserWhitecards u).contains text = false →
      Game.vote (some s) (some u) text = .error .UnknownCard) ∧
    (u.master = false → s.status = Status.voting →
      (s.getUserWhitecards u).contains text = true → u.voted = true →
      Game.vote (some s) (some u) text = .error .AlreadyVoted) ∧
    (u.master = false → s.status = Status.voting →
      (s.getUserWhitecards u).contains text = true → u.voted = false →
      Game.vote (some s) (some u) text = .ok (u, text)) := by
  refine ⟨?_, ?_, ?_, ?_, ?_⟩
  · intro hm
    simp [Game.vote, hm]
  · intro hm hst
    simp [Game.vote, hm, hst, bne_iff_ne]
  · intro hm hst hc
    have hc' : text ∉ s.getUserWhitecards u := by simpa using hc
    simp [Game.vote, hm, hst, hc']
  · intro hm hst hc hv
    have hc' : text ∈ s.getUserWhitecards u := by simpa using hc
    simp [Game.vote, hm, hst, hc', hv]
  · intro hm hst hc hv
    have hc' : text ∈ s.getUserWhitecards u := by simpa using hc
    simp [Game.vote, hm, hst, hc', hv]

/-- Fixture: the guest after having voted this round. -/
def wVoted : User := { wGuest with voted := true }

/-- C6 witness: on the fixture voting session, the master is rejected, a
vote outside `voting` status is rejected, an unknown card and a second vote
are rejected, and the guest's valid vote reaches `session.vote`. -/
theorem vote_guards_witness :
    Game.vote (some wSession) (some wMaster) "c1" = .error .PermissionDenied ∧
    Game.vote (some wWaiting) (some wGuest) "c1" = .error .InvalidPhase ∧
    Game.vote (some wSession) (some wGuest) "zzz" = .error .UnknownCard ∧
    Game.vote (some wSession) (some wVoted) "c1" = .error .AlreadyVoted ∧
    Game.vote (some wSession) (some wGuest) "c1" = .ok (wGuest, "c1") :=
  ⟨(vote_guards wSession wMaster "c1").1 rfl,
   (vote_guards wWaiting wGuest "c1").2.1 rfl (by decide),
   (vote_guards wSession wGuest "zzz").2.2.1 rfl rfl rfl,
   (vote_guards wSession wVoted "c1").2.2.2.1 rfl rfl rfl rfl,
   (vote_guards wSession wGuest "c1").2.2.2.2 rfl rfl rfl rfl⟩

/-! ## C7 -/

/-- C7: with a bound session and user, `Game.startGame` rejects a non-host
caller with `PermissionDenied`, rejects a session whose status is neither
`waiting` nor `end` with `InvalidPhase`, and otherwise proceeds — producing
the wiring trace that ends in the `session.startGame()` call. -/
theorem startGame_guards (s : Session) (u : User) :
    (u.host = false →
      Game.startGame (some s) (some u) = .error .PermissionDenied) ∧
    (u.host = true → s.status ≠ Status.waiting → s.status ≠ Status.«end» →
      Game.startGame (some s) (some u) = .error .InvalidPhase) ∧
    (u.host = true → (s.status = Status.waiting ∨ s.status = Status.«end») →
      Game.startGame (some s) (some u) = .ok okStartTrace ∧
      Game.StartAction.callStartGame ∈ okStartTrace) := by
  refine ⟨?_, ?_, ?_⟩
  · intro hh
    simp [Game.startGame, hh]
  · intro hh hw he
    simp [Game.startGame, hh, hw, he, bne_iff_ne]
  · intro hh hst
    have hws : (s.status != Status.waiting && s.status != Status.«end») = false := by
      rcases hst with h | h <;> rw [h] <;> rfl
    refine ⟨?_, by decide⟩
    simp [Game.startGame, hh, hws, okStartTrace]

/-- C7 witness: the guest cannot start the fixture waiting session, the host
cannot start the mid-game (voting) session, and the host starting the
waiting session succeeds. -/
theorem startGame_guards_witness :
    Game.startGame (some wWaiting) (some wGuest) = .error .PermissionDenied ∧
    Game.startGame (some wSession) (some wHost) = .error .InvalidPhase ∧
    (Game.startGame (some wWaiting) (some wHost) = .ok okStartTrace ∧
      Game.StartAction.callStartGame ∈ okStartTrace) :=
  ⟨(startGame_guards wWaiting wGuest).1 rfl,
   (startGame_guards wSession wHost).2.1 rfl (by decide) (by decide),
   (startGame_guards wWaiting wHost).2.2 rfl (Or.inl rfl)⟩

/-! ## C8 -/

/-- C8: with a bound session, `Game.choose` fails with `InvalidPhase` unless
the status is exactly `choosing` (before even resolving the user), and
`Game.chooseBest` likewise unless the status is `choosingbest`; in the
matching status a non-master caller gets `PermissionDenied`, and only a
master caller reaches `session.choose(userId)` / `session.chooseBest(userId)`. -/
theorem choose_guards (s : Session) (u : User) (uid : Nat) :
    (∀ u?, s.status ≠ Status.choosing →
      Game.choose (some s) u? uid = .error .InvalidPhase) ∧
    (s.status = Status.choosing → u.master = false →
      Game.choose (some s) (some u) uid = .error .PermissionDenied) ∧
    (s.status = Status.choosing → u.master = true →
      Game.choose (some s) (some u) uid = .ok uid) ∧
    (∀ u?, s.status ≠ Status.choosingbest →
      Game.chooseBest (some s) u? uid = .error .InvalidPhase) ∧
    (s.status = Status.choosingbest → u.master = false →
      Game.chooseBest (some s) (some u) uid = .error .PermissionDenied) ∧
    (s.status = Status.choosingbest → u.master = true →
      Game.chooseBest (some s) (some u) uid = .ok uid) := by
  refine ⟨?_, ?_, ?_, ?_, ?_, ?_⟩
  · intro u? hst
    simp [Game.choose, hst, bne_iff_ne]
  · intro hst hm
    simp [Game.choose, hst, hm]
  · intro hst hm
    simp [Game.choose, hst, hm]
  · intro u? hst
    simp [Game.chooseBest, hst, bne_iff_ne]
  · intro hst hm
    simp [Game.chooseBest, hst, hm]
  · intro hst hm
    simp [Game.chooseBest, hst, hm]

/-- Fixture: the mid-game session in `choosing` status. -/
def wChoosing : Session := { wSession with status := Status.choosing }

/-- Fixture: the mid-game session in `choosingbest` status. -/
def wChoosingBest : Session := { wSession with status := Status.choosingbest }

/-- C8 witness: both handlers on the fixture sessions — phase mismatch is
rejected even with no bound user, the non-master guest is rejected, and the
master's action goes through. -/
theorem choose_guards_witness :
    Game.choose (some wSession) none 7 = .error .InvalidPhase ∧
    Game.choose (some wChoosing) (some wGuest) 7 = .error .PermissionDenied ∧
    Game.choose (some wChoosing) (some wMaster) 7 = .ok 7 ∧
    Game.chooseBest (some wSession) none 7 = .error .InvalidPhase ∧
    Game.chooseBest (some wChoosingBest) (some wGuest) 7 = .error .PermissionDenied ∧
    Game.chooseBest (some wChoosingBest) (some wMaster) 7 = .ok 7 :=
  ⟨(choose_guards wSession wGuest 7).1 none (by decide),
   (choose_guards wChoosing wGuest 7).2.1 rfl rfl,
   (choose_guards wChoosing wMaster 7).2.2.1 rfl rfl,
   (choose_guards wSession wGuest 7).2.2.2.1 none (by decide),
   (choose_guards wChoosingBest wGuest 7).2.2.2.2.1 rfl rfl,
   (choose_guards wChoosingBest wMaster 7).2.2.2.2.2 rfl rfl⟩

/-! ## C9 -/

/-- C9: the minimum-player guard in `Game.startGame` is unreachable: a
user-list length is never `< 0`, the handler never returns the
`NeedMorePlayers` failure, and a host can start a `waiting`/`end` session
with any number of users — including a single one, as in the witness. -/
theorem startGame_minPlayers_unreachable (s : Session) (u : User) :
    ¬ (s.users.length < 0) ∧
    Game.startGame (some s) (some u) ≠ .error .NeedMorePlayers ∧
    (u.host = true → (s.status = Status.waiting ∨ s.status = Status.«end») →
      Game.startGame (some s) (some u) = .ok okStartTrace) := by
  refine ⟨Nat.not_lt_zero _, ?_, ?_⟩
  · intro hcontra
    simp only [Game.startGame] at hcontra
    split at hcontra
    · simp at hcontra
    · split at hcontra
      · simp at hcontra
      · split at hcontra
        · omega
        · simp at hcontra
  · intro hh hst
    have hws : (s.status != Status.waiting && s.status != Status.«end») = false := by
      rcases hst with h | h <;> rw [h] <;> rfl
    simp [Game.startGame, hh, hws, okStartTrace]

/-- C9 witness: the host starts the fixture waiting session, which has
exactly one user, and no `NeedMorePlayers` failure occurs. -/
theorem startGame_minPlayers_unreachable_witness :
    ¬ (wWaiting.users.length < 0) ∧
    Game.startGame (some wWaiting) (some wHost) ≠ .error .NeedMorePlayers ∧
    Game.startGame (some wWaiting) (some wHost) = .ok okStartTrace :=
  ⟨(startGame_minPlayers_unreachable wWaiting wHost).1,
   (startGame_minPlayers_unreachable wWaiting wHost).2.1,
   (startGame_minPlayers_unreachable wWaiting wHost).2.2 rfl (Or.inl rfl)⟩

/-! ## C10 -/

/-- C10: the `lostconnection` handler is a silent no-op when the connection
has no bound session or no bound user — it raises nothing and returns the
registry and socket unchanged; when both are bound it applies
`session.disconnectUser` to the bound session (removing the session from
the registry when that call reports the active set empty) and then clears
both of the connection's associations. -/
theorem disconnect_handler_spec (g : GameState) (sock : Socket) :
    ((sock.session = none ∨ sock.user = none) →
      Game.disconnectUser g sock = (g, sock)) ∧
    (∀ s uid, sock.session = some s → sock.user = some uid →
      (Game.disconnectUser g sock).2.session = none ∧
      (Game.disconnectUser g sock).2.user = none ∧
      ((s.disconnectUser uid).2 = false →
        (Game.disconnectUser g sock).1.sessions =
          (g.sessions.map fun p =>
            if p.1 == (s.disconnectUser uid).1.id then
              (p.1, (s.disconnectUser uid).1)
            else p)) ∧
      ((s.disconnectUser uid).2 = true →
        (Game.disconnectUser g sock).1.sessions =
          ((g.sessions.map fun p =>
            if p.1 == (s.disconnectUser uid).1.id then
              (p.1, (s.disconnectUser uid).1)
            else p).filter
            fun p => p.1 != (s.disconnectUser uid).1.id))) := by
  obtain ⟨so, uo⟩ := sock
  constructor
  · rintro (h | h) <;> simp only at h <;> subst h
    · rfl
    · cases so <;> rfl
  · intro s uid hs huid
    simp only at hs huid
    subst hs; subst huid
    refine ⟨?_, ?_, ?_, ?_⟩
    · simp [Game.disconnectUser, Session.disconnectUser]
    · simp [Game.disconnectUser, Session.disconnectUser]
    · intro hne
      dsimp only [Session.disconnectUser] at hne
      dsimp only [Game.disconnectUser, Session.disconnectUser]
      rw [hne]
      simp [Session.disconnectUser]
    · intro hem
      dsimp only [Session.disconnectUser] at hem
      dsimp only [Game.disconnectUser, Session.disconnectUser, Game.onSessionEnd]
      rw [hem]
      simp [Session.disconnectUser, Game.onSessionEnd]

/-- C10 witness: a socket with no bound user is a no-op on the fixture
registry; a socket bound to the mid-game fixture session and its guest gets
both associations cleared and the registry entry updated in place (the
session still has connected users, so it is not torn down). -/
theorem disconnect_handler_spec_witness :
    Game.disconnectUser wGame { session := some wSession, user := none } =
      (wGame, { session := some wSession, user := none }) ∧
    (Game.disconnectUser wGame
      { session := some wSession, user := some 1 }).2.session = none ∧
    (Game.disconnectUser wGame
      { session := some wSession, user := some 1 }).2.user = none ∧
    (Game.disconnectUser wGame
      { session := some wSession, user := some 1 }).1.sessions =
      (wGame.sessions.map fun p =>
        if p.1 == (wSession.disconnectUser 1).1.id then
          (p.1, (wSession.disconnectUser 1).1)
        else p) :=
  ⟨(disconnect_handler_spec wGame
      { session := some wSession, user := none }).1 (Or.inr rfl),
   ((disconnect_handler_spec wGame
      { session := some wSession, user := some 1 }).2 wSession 1 rfl rfl).1,
   ((disconnect_handler_spec wGame
      { session := some wSession, user := some 1 }).2 wSession 1 rfl rfl).2.1,
   ((disconnect_handler_spec wGame
      { session := some wSession, user := some 1 }).2 wSession 1 rfl
        rfl).2.2.1 rfl⟩
